import Mathlib

/-!
Shallow embedding of the crates.io admin-user front-end fragment:
routes, controllers and the user model for viewing and moderating
user accounts.  Timestamps are modelled as `Int` milliseconds since
the epoch; "now" is passed explicitly wherever the JavaScript reads
the current clock.  JavaScript truthiness of the optional values the
code branches on is modelled explicitly (`none`, the empty string and
the number 0 are falsy).  Network calls are modelled by passing the
server's answer as an `Except` value.
-/

/-- The `lock` sub-record of a user (`@attr lock` in `app/models/user.js`):
a free-text `reason` and a nullable `until` timestamp.  The source field
is named `until`, a reserved word in Lean, hence `until_`. -/
structure Lock where
  reason : Option String
  until_ : Option Int
deriving DecidableEq

/-- The `User` model of `app/models/user.js`: its declared attributes. -/
structure User where
  id : String
  email : String
  email_verified : Bool
  email_verification_sent : Bool
  name : String
  is_admin : Bool
  login : String
  avatar : String
  url : String
  kind : String
  publish_notifications : Bool
  lock : Option Lock
deriving DecidableEq

/-- JavaScript truthiness of an optional string: `undefined`/`null` and
`""` are falsy. -/
def strTruthy : Option String → Bool
  | none => false
  | some s => s != ""

/-- JavaScript truthiness of an optional numeric timestamp:
`undefined`/`null` and `0` are falsy. -/
def numTruthy : Option Int → Bool
  | none => false
  | some v => v != 0

/-- date-fns `isFuture(d)`: true iff `d` is strictly after the current
time (`d.getTime() > Date.now()`). -/
def isFuture (d : Int) (now : Int) : Bool :=
  decide (now < d)

/-- `AdminUserProfileController.lockReason`: `this.model.user.lock?.reason`. -/
def lockReason (lock : Option Lock) : Option String :=
  lock.bind (fun l => l.reason)

/-- `AdminUserProfileController.lockedUntil`: `this.model.user.lock?.until`. -/
def lockedUntil (lock : Option Lock) : Option Int :=
  lock.bind (fun l => l.until_)

/-- `AdminUserProfileController.isCurrentlyLocked`:
`if (!this.lockReason) return false; const until = this.lockedUntil;
if (!until) return true; return isFuture(until);`.
When the second `if` falls through, `until` is a present, non-zero
timestamp, so the `getD 0` default is never the value compared. -/
def isCurrentlyLocked (lock : Option Lock) (now : Int) : Bool :=
  if !(strTruthy (lockReason lock)) then false
  else
    let u := lockedUntil lock
    if !(numTruthy u) then true
    else isFuture (u.getD 0) now

/-- `AdminUserProfileController.wasPreviouslyLocked`:
`this.lockReason && !this.isCurrentlyLocked` (as a truth value). -/
def wasPreviouslyLocked (lock : Option Lock) (now : Int) : Bool :=
  strTruthy (lockReason lock) && !(isCurrentlyLocked lock now)

/-- Claim C1: for every fetched user, `isCurrentlyLocked` is false when
the lock record has no (truthy) reason; true when a reason is present
and the lock has no (truthy) `until` timestamp; and when both reason
and `until` are present, true iff `until` is strictly after the current
time. -/
theorem c1_isCurrentlyLocked_characterization (lock : Option Lock) (now : Int) :
    isCurrentlyLocked lock now = true ↔
      (strTruthy (lockReason lock) = true ∧
        (numTruthy (lockedUntil lock) = false ∨
          ∃ t : Int, lockedUntil lock = some t ∧ numTruthy (some t) = true ∧ now < t)) := by
  unfold isCurrentlyLocked
  cases hr : strTruthy (lockReason lock) with
  | false => simp [hr]
  | true =>
    cases hu : lockedUntil lock with
    | none => simp [hr, hu, numTruthy]
    | some t =>
      by_cases ht : t = 0
      · simp [hr, hu, ht, numTruthy]
      · simp [hr, hu, ht, numTruthy, isFuture]

/-- Claim C5: `wasPreviouslyLocked` is true iff a (truthy) reason exists
and `isCurrentlyLocked` is false; hence the two flags are never both
true. -/
theorem c5_wasPreviouslyLocked_characterization (lock : Option Lock) (now : Int) :
    (wasPreviouslyLocked lock now = true ↔
      (strTruthy (lockReason lock) = true ∧ isCurrentlyLocked lock now = false)) ∧
      ¬(isCurrentlyLocked lock now = true ∧ wasPreviouslyLocked lock now = true) := by
  unfold wasPreviouslyLocked
  constructor
  · cases hr : strTruthy (lockReason lock) <;>
      cases hc : isCurrentlyLocked lock now <;> simp [hr, hc]
  · rintro ⟨hc, hw⟩
    rw [hc] at hw
    simp at hw

/-- JavaScript whitespace characters stripped by `Number()` before
conversion (the ASCII ones; exotic Unicode spaces are outside the
inputs this surface can produce). -/
def jsWhitespace (c : Char) : Bool :=
  c == ' ' || c == '\t' || c == '\n' || c == '\r' || c == '\x0b' || c == '\x0c'

/-- Strip JavaScript whitespace from both ends of a character list. -/
def trimWs (cs : List Char) : List Char :=
  ((cs.dropWhile jsWhitespace).reverse.dropWhile jsWhitespace).reverse

/-- Numeric value of a digit string (most significant first). -/
def digitsVal (cs : List Char) : Nat :=
  cs.foldl (fun a c => a * 10 + (c.toNat - 48)) 0

/-- Truncated value of an unsigned JavaScript decimal literal:
`digits`, `digits.digits?` or `.digits` (at least one digit overall).
The fractional digits are parsed but discarded, because date-fns
`addDays` applies `toInteger` (truncation toward zero) to its amount.
`none` is NaN. -/
def jsDecimalTrunc (cs : List Char) : Option Nat :=
  let p := cs.span (fun c => c != '.')
  match p.2 with
  | [] =>
    if !p.1.isEmpty && p.1.all Char.isDigit then some (digitsVal p.1) else none
  | _ :: frac =>
    if (!p.1.isEmpty || !frac.isEmpty) && p.1.all Char.isDigit && frac.all Char.isDigit
    then some (digitsVal p.1) else none

/-- `toInteger(new Number(s))`: JavaScript string-to-number conversion
followed by date-fns truncation toward zero, for the decimal forms a
day-count field can hold.  The whitespace-trimmed empty string converts
to 0; a sign prefix is honoured; anything non-numeric is NaN (`none`). -/
def jsStringToInteger (s : String) : Option Int :=
  match trimWs s.toList with
  | [] => some 0
  | '-' :: rest => (jsDecimalTrunc rest).map (fun n => -(n : Int))
  | '+' :: rest => (jsDecimalTrunc rest).map (fun n => (n : Int))
  | cs => (jsDecimalTrunc cs).map (fun n => (n : Int))

/-- Milliseconds in a day, the unit of date-fns `addDays`. -/
def msPerDay : Int := 86400000

/-- date-fns `addDays(now, days)` on millisecond timestamps (after the
truncation already applied by `jsStringToInteger`). -/
def addDays (now : Int) (days : Int) : Int :=
  now + days * msPerDay

/-- The `{ reason, until }` payload built by
`AdminUserProfileController.asPayload` (`until_` for the reserved word). -/
structure Payload where
  reason : String
  until_ : Option Int
deriving DecidableEq

/-- `AdminUserProfileController.asPayload()`:
`let until = null; days = new Number(days); if (!isNaN(days)) until =
addDays(new Date(), days); return { reason, until };`. -/
def asPayload (reason : String) (days : String) (now : Int) : Payload :=
  match jsStringToInteger days with
  | some n => { reason := reason, until_ := some (addDays now n) }
  | none => { reason := reason, until_ := none }

example : jsStringToInteger "7" = some 7 := by decide
example : jsStringToInteger "abc" = none := by decide
example : jsStringToInteger "" = some 0 := by decide
example : jsStringToInteger "  " = some 0 := by decide
example : jsStringToInteger "-3.5" = some (-3) := by decide
example : jsStringToInteger "3" = some 3 := by decide

/-- Claim C3: `asPayload()` returns `until = now + days` days when the
days text converts to a valid number (e.g. `"7"` yields now + 7 days),
`until = null` when it does not (e.g. `"abc"`), and passes the reason
through unchanged. -/
theorem c3_asPayload_conversion (reason days : String) (now : Int) :
    (∀ n : Int, jsStringToInteger days = some n →
        asPayload reason days now = { reason := reason, until_ := some (addDays now n) }) ∧
      (jsStringToInteger days = none →
        asPayload reason days now = { reason := reason, until_ := none }) ∧
      asPayload reason "7" now = { reason := reason, until_ := some (addDays now 7) } ∧
      asPayload reason "abc" now = { reason := reason, until_ := none } := by
  refine ⟨fun n hn => ?_, fun hn => ?_, ?_, ?_⟩
  · simp [asPayload, hn]
  · simp [asPayload, hn]
  · have h7 : jsStringToInteger "7" = some 7 := by decide
    simp [asPayload, h7]
  · have habc : jsStringToInteger "abc" = none := by decide
    simp [asPayload, habc]

/-- Witness for C3 at concrete inputs. -/
theorem c3_asPayload_conversion_witness :
    asPayload "spam" "7" 1000 = { reason := "spam", until_ := some (addDays 1000 7) } ∧
      asPayload "spam" "abc" 1000 = { reason := "spam", until_ := none } :=
  ⟨(c3_asPayload_conversion "spam" "7" 1000).1 7 (by decide),
    (c3_asPayload_conversion "spam" "abc" 1000).2.1 (by decide)⟩

/-- Claim C9 (implicit): an empty or whitespace-only days field is not
treated as invalid — `Number` converts it to 0, so `until` is now + 0
days, i.e. the current instant, which is already not in the future,
rather than `null`. -/
theorem c9_empty_days_converts_to_zero (reason s : String) (now : Int)
    (h : trimWs s.toList = []) :
    jsStringToInteger s = some 0 ∧
      asPayload reason s now = { reason := reason, until_ := some now } ∧
      asPayload reason "" now = { reason := reason, until_ := some now } ∧
      isFuture now now = false := by
  have h0 : jsStringToInteger s = some 0 := by
    unfold jsStringToInteger
    rw [h]
  refine ⟨h0, ?_, ?_, by simp [isFuture]⟩
  · simp [asPayload, h0, addDays]
  · have he : jsStringToInteger "" = some 0 := by decide
    simp [asPayload, he, addDays]

/-- Witness for C9 at a concrete whitespace-only input. -/
theorem c9_empty_days_converts_to_zero_witness :
    jsStringToInteger "  " = some 0 ∧
      asPayload "r" "  " 555 = { reason := "r", until_ := some 555 } ∧
      asPayload "r" "" 555 = { reason := "r", until_ := some 555 } ∧
      isFuture 555 555 = false :=
  c9_empty_days_converts_to_zero "r" "  " 555 (by decide)

/-- An opaque identifier for an in-flight navigation (`transition`). -/
abbrev Transition := Nat

/-- A failed network call: `HttpError` from `utils/ajax` carries an
optional `response?.status`; any other thrown value is `other`. -/
inductive FetchError where
  | http (status : Option Nat)
  | other
deriving DecidableEq

/-- A JavaScript exception escaping a route's `model` hook. -/
inductive JsError where
  | referenceError (name : String)
deriving DecidableEq

/-- The parameter object passed to `router.replaceWith('catch-all', ...)`:
the original transition, the causing error, a title, and the optional
`tryAgain` / `loginNeeded` flags (absent = false). -/
structure CatchAllParams where
  transition : Option Transition
  error : Option FetchError
  title : String
  tryAgain : Bool
  loginNeeded : Bool
deriving DecidableEq

/-- What a route `model` hook can do: return a value, end after a
`replaceWith('catch-all', ...)` redirect, or let an exception escape. -/
inductive RouteOutcome (α : Type) where
  | returns (a : α)
  | redirect (p : CatchAllParams)
  | thrown (e : JsError)
deriving DecidableEq

/-- `error instanceof HttpError && error.response?.status === 404`
(`AdminUserRoute.model`'s not-found test). -/
def isNotFound404 (e : FetchError) : Bool :=
  match e with
  | .http (some s) => s == 404
  | _ => false

/-- `AdminUserRoute.model` (single-user admin lookup): fetch
`/api/v1/users/{user_id}/admin`; on success push the normalized user and
return `{ user }`; on a 404 `HttpError` redirect to catch-all with
`"<id>: User not found"`; on any other failure redirect with
`"<id>: Failed to load user data"` and `tryAgain: true`.  The `fetch`
argument stands for the awaited `ajax` result. -/
def adminUserRouteModel (user_id : String) (t : Transition)
    (fetch : Except FetchError User) : RouteOutcome User :=
  match fetch with
  | .ok response => .returns response
  | .error error =>
    if isNotFound404 error then
      .redirect { transition := some t, error := some error,
                  title := user_id ++ ": User not found",
                  tryAgain := false, loginNeeded := false }
    else
      .redirect { transition := some t, error := some error,
                  title := user_id ++ ": Failed to load user data",
                  tryAgain := true, loginNeeded := false }

/-- Claim C4: a failing single-user admin fetch redirects to catch-all —
with `"<id>: User not found"` and no retry on a 404, with
`"<id>: Failed to load user data"` and retry on anything else — and the
error never escapes the route's `model` hook. -/
theorem c4_admin_user_route_failure (user_id : String) (t : Transition) (e : FetchError) :
    (isNotFound404 e = true →
      adminUserRouteModel user_id t (.error e) =
        .redirect { transition := some t, error := some e,
                    title := user_id ++ ": User not found",
                    tryAgain := false, loginNeeded := false }) ∧
      (isNotFound404 e = false →
        adminUserRouteModel user_id t (.error e) =
          .redirect { transition := some t, error := some e,
                      title := user_id ++ ": Failed to load user data",
                      tryAgain := true, loginNeeded := false }) ∧
      ∀ ex : JsError, adminUserRouteModel user_id t (.error e) ≠ .thrown ex := by
  refine ⟨fun h => ?_, fun h => ?_, fun ex => ?_⟩
  · simp [adminUserRouteModel, h]
  · simp [adminUserRouteModel, h]
  · cases h : isNotFound404 e <;> simp [adminUserRouteModel, h]

/-- Witness for C4: a 404 for id `"ghost"` and a status-500 failure. -/
theorem c4_admin_user_route_failure_witness :
    adminUserRouteModel "ghost" 0 (.error (.http (some 404))) =
        .redirect { transition := some 0, error := some (.http (some 404)),
                    title := "ghost: User not found",
                    tryAgain := false, loginNeeded := false } ∧
      adminUserRouteModel "ghost" 0 (.error (.http (some 500))) =
        .redirect { transition := some 0, error := some (.http (some 500)),
                    title := "ghost: Failed to load user data",
                    tryAgain := true, loginNeeded := false } :=
  ⟨(c4_admin_user_route_failure "ghost" 0 (.http (some 404))).1 (by decide),
    (c4_admin_user_route_failure "ghost" 0 (.http (some 500))).2.1 (by decide)⟩

/-- The result of a crates listing query, opaque to this layer beyond
the pagination total. -/
structure CratesPage where
  total : Nat
deriving DecidableEq

/-- `AdminUserCratesRoute.model`: on success returns `{ crates, user }`.
Its `catch` block classifies the error, but both branches begin by
building a title from the template literal `${user_id}: ...` — and no
binding named `user_id` exists in that scope (the route only ever sets
`params.user_id`).  Evaluating the free identifier throws a
`ReferenceError` before `replaceWith` is reached, so every failure
escapes the hook instead of redirecting. -/
def adminUserCratesRouteModel (user : User) (_t : Transition)
    (fetch : Except FetchError CratesPage) : RouteOutcome (CratesPage × User) :=
  match fetch with
  | .ok crates => .returns (crates, user)
  | .error _ => .thrown (.referenceError "user_id")

/-- A concrete user record for evaluating the crates route at a failing
input. -/
def ghostUser : User :=
  { id := "42", email := "g@example.com", email_verified := true,
    email_verification_sent := false, name := "Ghost", is_admin := false,
    login := "ghost", avatar := "", url := "", kind := "user",
    publish_notifications := false, lock := none }

/-- Claim C2 evaluated at a failing input: a not-found failure of the
crates-by-user fetch makes the route throw
`ReferenceError: user_id is not defined` out of its catch block — it
does not redirect to the error view at all, so the behavior does not
mirror the single-user lookup. -/
theorem c2_crates_route_throws_reference_error :
    adminUserCratesRouteModel ghostUser 0 (.error (.http (some 404))) =
      .thrown (.referenceError "user_id") :=
  rfl

/-- `AdminUserProfileController.reset()` defaults: `this.days = '7'`. -/
def defaultDays : String := "7"

/-- `AdminUserProfileController.reset()` defaults:
`this.reason = 'Please contact help@crates.io.'`. -/
def defaultReason : String := "Please contact help@crates.io."

/-- The controller's tracked fields plus the slice of the ember-data
store the controller touches (`this.store`), as a list of cached users. -/
structure ProfileState where
  days : String
  reason : String
  cache : List User
deriving DecidableEq

/-- `AdminUserProfileController.reset()`. -/
def reset (st : ProfileState) : ProfileState :=
  { st with days := defaultDays, reason := defaultReason }

/-- `store.push(store.normalize('user', u))`: merge the server-returned
full user representation into the cache, replacing the record with the
same id or adding a new one. -/
def pushUser (u : User) (cache : List User) : List User :=
  if cache.any (fun v => v.id == u.id)
  then cache.map (fun v => if v.id == u.id then u else v)
  else cache ++ [u]

/-- Observable side effects of the lock/unlock tasks, in program order. -/
inductive Effect where
  | request (method : String) (url : String) (body : Option Payload)
  | notifySuccess (msg : String)
  | notifyError (msg : String)
  | sentryCapture
  | consoleError
  | storePush (u : User)
deriving DecidableEq

/-- The lock endpoint URL `/api/v1/users/${login}/lock`. -/
def lockUrl (login : String) : String :=
  "/api/v1/users/" ++ login ++ "/lock"

/-- `AdminUserProfileController.lockTask`: PUT `asPayload()` to the lock
endpoint; on success notify, `reset()`, and push the returned user; on
failure notify the error, report it to Sentry and log it, without
rethrowing.  `server` stands for the awaited `ajax` result. -/
def lockTask (st : ProfileState) (login : String) (now : Int)
    (server : Except FetchError User) : ProfileState × List Effect :=
  let req := Effect.request "PUT" (lockUrl login) (some (asPayload st.reason st.days now))
  match server with
  | .ok user =>
    (reset { st with cache := pushUser user st.cache },
      [req, Effect.notifySuccess "User account locked", Effect.storePush user])
  | .error _ =>
    (st, [req, Effect.notifyError "An error occurred while locking the account.",
      Effect.sentryCapture, Effect.consoleError])

/-- `AdminUserProfileController.unlockTask`: DELETE the lock endpoint
with no body; success and failure handling as in `lockTask`. -/
def unlockTask (st : ProfileState) (login : String)
    (server : Except FetchError User) : ProfileState × List Effect :=
  let req := Effect.request "DELETE" (lockUrl login) none
  match server with
  | .ok user =>
    (reset { st with cache := pushUser user st.cache },
      [req, Effect.notifySuccess "User account unlocked", Effect.storePush user])
  | .error _ =>
    (st, [req, Effect.notifyError "An error occurred while unlocking the account.",
      Effect.sentryCapture, Effect.consoleError])

/-- Claim C6: a successful lock action PUTs the `asPayload()` body to the
user's lock endpoint, then notifies success, resets `days`/`reason` to
their defaults and merges the returned user into the cache; and the
spec's example payload for `days = "3"`, `reason = "spam"` is
`{reason: "spam", until: now + 3 days}`. -/
theorem c6_lock_success (st : ProfileState) (login : String) (now : Int) (u : User) :
    lockTask st login now (.ok u) =
        ({ days := "7", reason := "Please contact help@crates.io.",
            cache := pushUser u st.cache },
          [Effect.request "PUT" ("/api/v1/users/" ++ login ++ "/lock")
              (some (asPayload st.reason st.days now)),
            Effect.notifySuccess "User account locked", Effect.storePush u]) ∧
      asPayload "spam" "3" now = { reason := "spam", until_ := some (now + 3 * msPerDay) } := by
  constructor
  · rfl
  · have h3 : jsStringToInteger "3" = some 3 := by decide
    simp [asPayload, h3, addDays]

/-- Claim C10 (implicit): a failing lock or unlock leaves the
controller's UI state and the cache untouched, and only notifies,
reports to Sentry and logs — nothing is pushed to the store and no
exception escapes the task. -/
theorem c10_failure_leaves_state_unchanged (st : ProfileState) (login : String)
    (now : Int) (e : FetchError) :
    lockTask st login now (.error e) =
        (st, [Effect.request "PUT" (lockUrl login) (some (asPayload st.reason st.days now)),
          Effect.notifyError "An error occurred while locking the account.",
          Effect.sentryCapture, Effect.consoleError]) ∧
      unlockTask st login (.error e) =
        (st, [Effect.request "DELETE" (lockUrl login) none,
          Effect.notifyError "An error occurred while unlocking the account.",
          Effect.sentryCapture, Effect.consoleError]) ∧
      (∀ u : User, Effect.storePush u ∉ (lockTask st login now (.error e)).2) ∧
      (∀ u : User, Effect.storePush u ∉ (unlockTask st login (.error e)).2) := by
  refine ⟨rfl, rfl, fun u => ?_, fun u => ?_⟩
  · simp [lockTask]
  · simp [unlockTask]

/-- Witness for C10 at a concrete failing input. -/
theorem c10_failure_leaves_state_unchanged_witness :
    lockTask { days := "5", reason := "x", cache := [] } "bob" 0 (.error .other) =
        ({ days := "5", reason := "x", cache := [] },
          [Effect.request "PUT" "/api/v1/users/bob/lock" (some (asPayload "x" "5" 0)),
            Effect.notifyError "An error occurred while locking the account.",
            Effect.sentryCapture, Effect.consoleError]) ∧
      Effect.storePush ghostUser ∉
        (lockTask { days := "5", reason := "x", cache := [] } "bob" 0 (.error .other)).2 :=
  ⟨(c10_failure_leaves_state_unchanged { days := "5", reason := "x", cache := [] }
      "bob" 0 .other).1,
    (c10_failure_leaves_state_unchanged { days := "5", reason := "x", cache := [] }
      "bob" 0 .other).2.2.1 ghostUser⟩

/-- The partial user object handed to `store.pushPayload({ user: ... })`:
exactly the keys present in the JavaScript object literal are `some`. -/
structure UserPayload where
  id : String
  email : Option String
  email_verified : Option Bool
  email_verification_sent : Option Bool
  name : Option String
  is_admin : Option Bool
  login : Option String
  avatar : Option String
  url : Option String
  kind : Option String
  publish_notifications : Option Bool
  lock : Option (Option Lock)
deriving DecidableEq

/-- `store.pushPayload` merge semantics on the cached record with the
payload's id: attributes present in the payload overwrite, absent ones
are kept. -/
def applyPayload (u : User) (p : UserPayload) : User :=
  if p.id == u.id then
    { id := u.id,
      email := p.email.getD u.email,
      email_verified := p.email_verified.getD u.email_verified,
      email_verification_sent := p.email_verification_sent.getD u.email_verification_sent,
      name := p.name.getD u.name,
      is_admin := p.is_admin.getD u.is_admin,
      login := p.login.getD u.login,
      avatar := p.avatar.getD u.avatar,
      url := p.url.getD u.url,
      kind := p.kind.getD u.kind,
      publish_notifications := p.publish_notifications.getD u.publish_notifications,
      lock := p.lock.getD u.lock }
  else u

/-- `User.changeEmail(email)`: await the PUT; on success push a payload
holding only `id`, the new `email`, `email_verified: false` and
`email_verification_sent: true`; a failed request propagates to the
caller with no local patch.  The returned `User` is the cache entry
after the call. -/
def changeEmail (u : User) (email : String)
    (server : Except FetchError Unit) : Except FetchError User :=
  match server with
  | .error e => .error e
  | .ok _ =>
    .ok (applyPayload u
      { id := u.id, email := some email, email_verified := some false,
        email_verification_sent := some true, name := none, is_admin := none,
        login := none, avatar := none, url := none, kind := none,
        publish_notifications := none, lock := none })

/-- `User.updatePublishNotifications(enabled)`: await the PUT; on
success push a payload holding only `id` and `publish_notifications`. -/
def updatePublishNotifications (u : User) (enabled : Bool)
    (server : Except FetchError Unit) : Except FetchError User :=
  match server with
  | .error e => .error e
  | .ok _ =>
    .ok (applyPayload u
      { id := u.id, email := none, email_verified := none,
        email_verification_sent := none, name := none, is_admin := none,
        login := none, avatar := none, url := none, kind := none,
        publish_notifications := some enabled, lock := none })

/-- `User.resendVerificationEmail()`: await the PUT and return its
result; no `pushPayload`, so the cache entry is untouched. -/
def resendVerificationEmail (u : User)
    (server : Except FetchError Unit) : Except FetchError User :=
  match server with
  | .error e => .error e
  | .ok _ => .ok u

/-- Claim C8: each successful entity mutation patches only the fields it
is known to change — `changeEmail` sets the email, clears
`email_verified` and sets `email_verification_sent` and nothing else;
`updatePublishNotifications` sets only `publish_notifications`;
`resendVerificationEmail` patches nothing. -/
theorem c8_mutations_patch_only_known_fields (u : User) (email : String) (b : Bool) :
    changeEmail u email (.ok ()) =
        .ok { u with email := email, email_verified := false,
                     email_verification_sent := true } ∧
      updatePublishNotifications u b (.ok ()) = .ok { u with publish_notifications := b } ∧
      resendVerificationEmail u (.ok ()) = .ok u := by
  refine ⟨?_, ?_, rfl⟩
  · simp [changeEmail, applyPayload]
  · simp [updatePublishNotifications, applyPayload]

/-- The session state the admin guard consults. -/
structure Session where
  isAuthenticated : Bool
  isAdmin : Bool
  savedTransition : Option Transition
deriving DecidableEq

/-- Modelled from the spec: the base `AuthenticatedRoute.beforeModel`
(file `-authenticated-route`, not among the sources) performs its own
redirect for an unauthenticated session and lets an authenticated one
proceed (spec section 4.1: "If unauthenticated, defer to the base
authentication guard's own redirect"). -/
def authenticatedBeforeModel (s : Session) (t : Transition) : Option CatchAllParams :=
  if s.isAuthenticated then none
  else some { transition := some t, error := none,
              title := "This page requires authentication",
              tryAgain := false, loginNeeded := true }

/-- `AdminRoute.beforeModel(transition)`: `await super.beforeModel`;
then, if the session is not an admin session, save the transition on
the session and `replaceWith('catch-all', { transition, loginNeeded:
true, title: 'This page requires authentication' })`. -/
def adminBeforeModel (s : Session) (t : Transition) : Session × Option CatchAllParams :=
  let base := authenticatedBeforeModel s t
  if !s.isAdmin then
    ({ s with savedTransition := some t },
      some { transition := some t, error := none,
             title := "This page requires authentication",
             tryAgain := false, loginNeeded := true })
  else (s, base)

/-- One observable step of an admin navigation. -/
inductive NavEvent where
  | redirected (p : CatchAllParams)
  | adminDataFetch
deriving DecidableEq

/-- Modelled from the spec: the hosting framework runs `beforeModel`
before the route's `model` hook, and a redirect issued in `beforeModel`
aborts the transition, so the admin data fetch never runs (spec
section 8: "redirected before any admin data fetch occurs"). -/
def adminNavigation (s : Session) (t : Transition) : Session × List NavEvent :=
  let r := adminBeforeModel s t
  match r.2 with
  | some p => (r.1, [NavEvent.redirected p])
  | none => (r.1, [NavEvent.adminDataFetch])

/-- Claim C7: an authenticated non-admin session entering an admin route
has its in-flight transition saved for resume and is redirected to
catch-all with the original transition, `loginNeeded: true` and the
fixed title, and no admin data fetch ever happens. -/
theorem c7_non_admin_redirected_before_fetch (s : Session) (t : Transition)
    (_hAuth : s.isAuthenticated = true) (hAdmin : s.isAdmin = false) :
    adminNavigation s t =
        ({ s with savedTransition := some t },
          [NavEvent.redirected
            { transition := some t, error := none,
              title := "This page requires authentication",
              tryAgain := false, loginNeeded := true }]) ∧
      NavEvent.adminDataFetch ∉ (adminNavigation s t).2 := by
  have h : adminNavigation s t =
      ({ s with savedTransition := some t },
        [NavEvent.redirected
          { transition := some t, error := none,
            title := "This page requires authentication",
            tryAgain := false, loginNeeded := true }]) := by
    simp [adminNavigation, adminBeforeModel, hAdmin]
  refine ⟨h, ?_⟩
  rw [h]
  simp

/-- Witness for C7: a concrete authenticated non-admin session. -/
theorem c7_non_admin_redirected_before_fetch_witness :
    adminNavigation { isAuthenticated := true, isAdmin := false, savedTransition := none } 5 =
        ({ isAuthenticated := true, isAdmin := false, savedTransition := some 5 },
          [NavEvent.redirected
            { transition := some 5, error := none,
              title := "This page requires authentication",
              tryAgain := false, loginNeeded := true }]) ∧
      NavEvent.adminDataFetch ∉
        (adminNavigation
          { isAuthenticated := true, isAdmin := false, savedTransition := none } 5).2 :=
  c7_non_admin_redirected_before_fetch
    { isAuthenticated := true, isAdmin := false, savedTransition := none } 5 rfl rfl
